import Mathlib

/-!
Shallow embedding of the MojiNav navigation engine
(round_1/frontend/src/App.tsx): the Haversine distance, the
nearest-vertex polyline distance, and the position-watch callback that
drives step advancement, arrival detection, off-route detection with a
debounced recalculation trigger, and the recalculation response
handlers.  JavaScript numbers are modelled as real numbers; the
JavaScript value Infinity is modelled as the top element of
WithTop Real; Date.now() millisecond clock readings are natural
numbers.
-/

namespace MojiNav

open Real

/-- JavaScript Math.atan2 (y, x), modelled over the reals. -/
noncomputable def atan2 (y x : ℝ) : ℝ :=
  if 0 < x then Real.arctan (y / x)
  else if x < 0 then
    (if 0 ≤ y then Real.arctan (y / x) + Real.pi else Real.arctan (y / x) - Real.pi)
  else if 0 < y then Real.pi / 2
  else if y < 0 then -(Real.pi / 2)
  else 0

/-- Function `calculateDistance` from App.tsx: Haversine distance in metres
between two latitude/longitude pairs (degrees), Earth radius
6371000 m. -/
noncomputable def calculateDistance (lat1 lng1 lat2 lng2 : ℝ) : ℝ :=
  let R : ℝ := 6371000
  let dLat := (lat2 - lat1) * Real.pi / 180
  let dLng := (lng2 - lng1) * Real.pi / 180
  let a := Real.sin (dLat / 2) ^ 2 +
    Real.cos (lat1 * Real.pi / 180) * Real.cos (lat2 * Real.pi / 180) *
    Real.sin (dLng / 2) ^ 2
  let c := 2 * atan2 (Real.sqrt a) (Real.sqrt (1 - a))
  R * c

/-- Structure `Location` from App.tsx. -/
structure Location where
  lat : ℝ
  lng : ℝ

/-- Structure `SearchResult` from App.tsx (the chosen destination); the `tags`
record is irrelevant to navigation and omitted from the fields used
here only in being left as an association list. -/
structure SearchResult where
  id : ℤ
  lat : ℝ
  lng : ℝ
  tags : List (String × String) := []

/-- Structure `RouteStep` from App.tsx. -/
structure RouteStep where
  instruction : String := ""
  type : ℕ := 0
  distance : ℝ := 0
  duration : ℝ := 0
  way_points : List ℕ

/-- Structure `Route` from App.tsx.  A coordinate is a `[lng, lat]` pair: the
first component is the longitude, the second the latitude, exactly as
the code indexes them (`coord[0]` = longitude, `coord[1]` =
latitude). -/
structure Route where
  distance : ℝ := 0
  duration : ℝ := 0
  coordinates : List (ℝ × ℝ)
  steps : List RouteStep

/-- The subset of `AppView` values from App.tsx. -/
inductive AppView where
  | loading
  | location_error
  | network_error
  | rate_limited
  | grid
  | searching
  | results
  | no_results
  | navigating
  | recalculating
  | arrived
  | settings
deriving DecidableEq, Repr

/-- The navigation-relevant mutable state of the App component:
`view`, `location`, `route`, `currentStepIndex` (React state),
`lastRecalcTime` (the `lastRecalcTimeRef` cell, initialised to 0) and
whether the geolocation watch is active (`watchIdRef !== null`).  The
fields `pending` (number of recalculation requests issued whose
response has not yet been processed) and `recalcCount` (total number
of recalculation requests issued) are ghost instrumentation used only
to state properties; no branch of the code reads them. -/
structure NavState where
  view : AppView
  location : Location
  route : Route
  currentStepIndex : ℕ
  lastRecalcTime : ℕ
  watchActive : Bool
  pending : ℕ
  recalcCount : ℕ

/-- The loop body's `dist` in `findNearestDistanceToRoute`:
`calculateDistance(loc.lat, loc.lng, coord[1], coord[0])`, viewed in
`WithTop Real` so that it can be compared with the `Infinity` initial
accumulator. -/
noncomputable def distTo (loc : Location) (c : ℝ × ℝ) : WithTop ℝ :=
  ((calculateDistance loc.lat loc.lng c.2 c.1 : ℝ) : WithTop ℝ)

/-- Function `findNearestDistanceToRoute` from App.tsx: fold over the route
coordinates starting from `minDist = Infinity`, keeping the smaller of
`minDist` and the distance to the current coordinate. -/
noncomputable def findNearestDistanceToRoute (loc : Location)
    (coords : List (ℝ × ℝ)) : WithTop ℝ :=
  List.foldl
    (fun minDist c => if distTo loc c < minDist then distTo loc c else minDist)
    ⊤ coords

lemma findNearest_eq_foldl (loc : Location) (coords : List (ℝ × ℝ)) :
    findNearestDistanceToRoute loc coords =
      List.foldl
        (fun minDist c => if distTo loc c < minDist then distTo loc c else minDist)
        ⊤ coords := rfl

lemma distTo_eq (loc : Location) (c : ℝ × ℝ) :
    distTo loc c = ((calculateDistance loc.lat loc.lng c.2 c.1 : ℝ) : WithTop ℝ) := rfl

/-- The `setCurrentStepIndex` updater inside the position-watch
callback of App.tsx: advance by one when the current step exists, has
more than one way point, its end coordinate exists, the position is
strictly within 6 m of that end coordinate, and the current step is
not the last; otherwise keep the index. -/
noncomputable def stepAdvance (currentRoute : Route) (prevIndex : ℕ)
    (newLoc : Location) : ℕ :=
  match currentRoute.steps.get? prevIndex with
  | none => prevIndex
  | some step =>
    if 1 < step.way_points.length then
      match currentRoute.coordinates.get?
          (step.way_points.getD (step.way_points.length - 1) 0) with
      | none => prevIndex
      | some endCoord =>
        if calculateDistance newLoc.lat newLoc.lng endCoord.2 endCoord.1 < 6
            ∧ prevIndex < currentRoute.steps.length - 1
        then prevIndex + 1
        else prevIndex
    else prevIndex

/-- The position-watch callback installed by `startPositionWatch` in
App.tsx, as a state transformer.  `destination` and `currentRoute` are
the values captured by the callback closure (they are not read from
the state, exactly as in the code).  In order: update the displayed
location; if within 20 m of the destination, clear the watch and enter
the arrived view; otherwise run the step-advance updater, then the
off-route check (`nearestDist > 30`) with the 10 s debounce
(`now - lastRecalcTime > 10000`), which on firing records the time,
enters the recalculating view and issues a request (ghost counters
incremented).  When the watch is not active the callback is never
invoked, so the state is unchanged. -/
noncomputable def processPosition (destination : SearchResult)
    (currentRoute : Route) (newLoc : Location) (now : ℕ)
    (s : NavState) : NavState :=
  if s.watchActive then
    if calculateDistance newLoc.lat newLoc.lng destination.lat destination.lng < 20 then
      { s with location := newLoc, view := AppView.arrived, watchActive := false }
    else if ((30 : ℝ) : WithTop ℝ) <
        findNearestDistanceToRoute newLoc currentRoute.coordinates then
      if 10000 < now - s.lastRecalcTime then
        { s with location := newLoc,
                 currentStepIndex := stepAdvance currentRoute s.currentStepIndex newLoc,
                 lastRecalcTime := now,
                 view := AppView.recalculating,
                 pending := s.pending + 1,
                 recalcCount := s.recalcCount + 1 }
      else
        { s with location := newLoc,
                 currentStepIndex := stepAdvance currentRoute s.currentStepIndex newLoc }
    else
      { s with location := newLoc,
               currentStepIndex := stepAdvance currentRoute s.currentStepIndex newLoc }
  else s

/-- The success branch of `recalculateRoute` in App.tsx: install the
new route, reset the step index to 0, return to the navigating view.
The ghost `pending` counter is decremented. -/
def processRecalcSuccess (newRoute : Route) (s : NavState) : NavState :=
  { s with route := newRoute,
           currentStepIndex := 0,
           view := AppView.navigating,
           pending := s.pending - 1 }

/-- The failure branch (non-ok response or thrown error) of
`recalculateRoute` in App.tsx: only the view is set back to
navigating.  The ghost `pending` counter is decremented. -/
def processRecalcFailure (s : NavState) : NavState :=
  { s with view := AppView.navigating,
           pending := s.pending - 1 }

/-- Route well-formedness, as the routing service delivers it: every
step has at least two way points, and every way point is an index into
the coordinate list. -/
def WellFormedRoute (r : Route) : Prop :=
  ∀ step ∈ r.steps, 2 ≤ step.way_points.length ∧
    ∀ i ∈ step.way_points, i < r.coordinates.length

instance (r : Route) : Decidable (WellFormedRoute r) := by
  unfold WellFormedRoute
  infer_instance

/-- The end coordinate of the step at `idx`, as the callback extracts
it: `coordinates[step.way_points[step.way_points.length - 1]]`. -/
noncomputable def stepEndCoord (currentRoute : Route) (idx : ℕ) : Option (ℝ × ℝ) :=
  match currentRoute.steps.get? idx with
  | none => none
  | some step =>
    currentRoute.coordinates.get? (step.way_points.getD (step.way_points.length - 1) 0)

/-! ### Helper lemmas about the geometry kernel -/

lemma calculateDistance_comm (lat1 lng1 lat2 lng2 : ℝ) :
    calculateDistance lat1 lng1 lat2 lng2 = calculateDistance lat2 lng2 lat1 lng1 := by
  simp only [calculateDistance]
  have h1 : (lat1 - lat2) * Real.pi / 180 / 2 = -((lat2 - lat1) * Real.pi / 180 / 2) := by
    ring
  have h2 : (lng1 - lng2) * Real.pi / 180 / 2 = -((lng2 - lng1) * Real.pi / 180 / 2) := by
    ring
  rw [h1, h2, Real.sin_neg, Real.sin_neg, neg_sq, neg_sq,
    mul_comm (Real.cos (lat2 * Real.pi / 180)) (Real.cos (lat1 * Real.pi / 180))]

lemma calculateDistance_self (lat lng : ℝ) :
    calculateDistance lat lng lat lng = 0 := by
  simp only [calculateDistance, sub_self, zero_mul, zero_div, Real.sin_zero]
  norm_num [atan2, Real.arctan_zero]

lemma atan2_sin_cos (θ : ℝ) (h1 : -(Real.pi / 2) < θ) (h2 : θ < Real.pi / 2) :
    atan2 (Real.sin θ) (Real.cos θ) = θ := by
  have hc : 0 < Real.cos θ := Real.cos_pos_of_mem_Ioo ⟨h1, h2⟩
  simp only [atan2, if_pos hc]
  rw [← Real.tan_eq_sin_div_cos]
  exact Real.arctan_tan h1 h2

/-- For two points on the same meridian with `lat1 ≤ lat2` and a
latitude difference below 180 degrees, the Haversine formula reduces
to arc length: Earth radius times the latitude difference in
radians. -/
lemma calculateDistance_same_lng (lat1 lat2 lng : ℝ) (h1 : lat1 ≤ lat2)
    (h2 : (lat2 - lat1) * Real.pi / 180 / 2 < Real.pi / 2) :
    calculateDistance lat1 lng lat2 lng =
      6371000 * ((lat2 - lat1) * Real.pi / 180) := by
  have hpi := Real.pi_pos
  have hθ0 : 0 ≤ (lat2 - lat1) * Real.pi / 180 / 2 := by
    have hs : 0 ≤ lat2 - lat1 := sub_nonneg.mpr h1
    positivity
  simp only [calculateDistance, sub_self, zero_mul, zero_div, Real.sin_zero, ne_eq,
    OfNat.ofNat_ne_zero, not_false_eq_true, zero_pow, mul_zero, add_zero]
  set θ : ℝ := (lat2 - lat1) * Real.pi / 180 / 2 with hθdef
  have hsin : 0 ≤ Real.sin θ := by
    apply Real.sin_nonneg_of_nonneg_of_le_pi hθ0
    linarith
  have hcos : 0 < Real.cos θ := Real.cos_pos_of_mem_Ioo ⟨by linarith, h2⟩
  have hone : 1 - Real.sin θ ^ 2 = Real.cos θ ^ 2 := by
    have := Real.sin_sq_add_cos_sq θ
    linarith
  rw [Real.sqrt_sq hsin, hone, Real.sqrt_sq hcos.le,
    atan2_sin_cos θ (by linarith) h2, hθdef]
  ring

lemma small_angle (δ : ℝ) (h2 : δ < 180) :
    δ * Real.pi / 180 / 2 < Real.pi / 2 := by
  nlinarith [Real.pi_pos]

/-! ### Helper lemmas about the minimum fold -/

lemma foldlMin_le_init {α : Type} (d : α → WithTop ℝ) :
    ∀ (l : List α) (m : WithTop ℝ),
      List.foldl (fun acc x => if d x < acc then d x else acc) m l ≤ m := by
  intro l
  induction l with
  | nil => intro m; exact le_refl m
  | cons x xs ih =>
    intro m
    simp only [List.foldl_cons]
    by_cases h : d x < m
    · rw [if_pos h]
      exact le_trans (ih (d x)) h.le
    · rw [if_neg h]
      exact ih m

lemma foldlMin_le_of_mem {α : Type} (d : α → WithTop ℝ) :
    ∀ (l : List α) (m : WithTop ℝ) (c : α), c ∈ l →
      List.foldl (fun acc x => if d x < acc then d x else acc) m l ≤ d c := by
  intro l
  induction l with
  | nil =>
    intro m c hc
    cases hc
  | cons x xs ih =>
    intro m c hc
    simp only [List.foldl_cons]
    rcases List.mem_cons.mp hc with rfl | hmem
    · refine le_trans (foldlMin_le_init d xs _) ?_
      by_cases h : d c < m
      · rw [if_pos h]
      · rw [if_neg h]
        exact le_of_not_lt h
    · exact ih _ c hmem

lemma foldlMin_eq_init_or_mem {α : Type} (d : α → WithTop ℝ) :
    ∀ (l : List α) (m : WithTop ℝ),
      List.foldl (fun acc x => if d x < acc then d x else acc) m l = m ∨
        ∃ c ∈ l, List.foldl (fun acc x => if d x < acc then d x else acc) m l = d c := by
  intro l
  induction l with
  | nil => intro m; left; rfl
  | cons x xs ih =>
    intro m
    simp only [List.foldl_cons]
    rcases ih (if d x < m then d x else m) with h | ⟨c, hc, h⟩
    · by_cases hx : d x < m
      · right
        exact ⟨x, List.mem_cons_self x xs, by rw [h, if_pos hx]⟩
      · left
        rw [h, if_neg hx]
    · right
      exact ⟨c, List.mem_cons_of_mem x hc, h⟩

/-! ### Claim theorems: geometry kernel -/

/-- C8: the Haversine distance is symmetric, and the distance from any
point to itself is 0; as a total function on the reals it is
well-defined for every latitude/longitude pair. -/
theorem distance_symmetric_and_self_zero :
    (∀ p q : Location, calculateDistance p.lat p.lng q.lat q.lng =
      calculateDistance q.lat q.lng p.lat p.lng) ∧
    (∀ p : Location, calculateDistance p.lat p.lng p.lat p.lng = 0) :=
  ⟨fun p q => calculateDistance_comm p.lat p.lng q.lat q.lng,
   fun p => calculateDistance_self p.lat p.lng⟩

/-- C9: on a non-empty coordinate list, `findNearestDistanceToRoute`
returns the minimum over all polyline vertices of the Haversine
distance from the position to that vertex: the returned value is
attained at some vertex and is a lower bound on the distance to every
vertex. -/
theorem nearest_distance_is_vertex_minimum (loc : Location)
    (coords : List (ℝ × ℝ)) (hne : coords ≠ []) :
    (∃ c ∈ coords, findNearestDistanceToRoute loc coords =
        ((calculateDistance loc.lat loc.lng c.2 c.1 : ℝ) : WithTop ℝ)) ∧
    (∀ c ∈ coords, findNearestDistanceToRoute loc coords ≤
        ((calculateDistance loc.lat loc.lng c.2 c.1 : ℝ) : WithTop ℝ)) := by
  simp only [← distTo_eq, findNearest_eq_foldl]
  have hle : ∀ c ∈ coords,
      List.foldl
        (fun minDist c => if distTo loc c < minDist then distTo loc c else minDist)
        ⊤ coords ≤ distTo loc c := fun c hc =>
    foldlMin_le_of_mem (distTo loc) coords ⊤ c hc
  refine ⟨?_, hle⟩
  rcases foldlMin_eq_init_or_mem (distTo loc) coords ⊤ with h | h
  · exfalso
    obtain ⟨c0, hc0⟩ := List.exists_mem_of_ne_nil coords hne
    have h2 := hle c0 hc0
    rw [h] at h2
    rw [top_le_iff] at h2
    exact WithTop.coe_ne_top h2
  · exact h

/-- Witness for C9 at a concrete input: the one-vertex polyline
`[(0, 0)]` is non-empty, and the nearest distance from the origin to
it is the distance to that vertex. -/
theorem nearest_distance_is_vertex_minimum_witness :
    ([((0 : ℝ), (0 : ℝ))] ≠ ([] : List (ℝ × ℝ))) ∧
    ((∃ c ∈ [((0 : ℝ), (0 : ℝ))],
        findNearestDistanceToRoute ⟨0, 0⟩ [((0 : ℝ), (0 : ℝ))] =
          ((calculateDistance (0 : ℝ) (0 : ℝ) c.2 c.1 : ℝ) : WithTop ℝ)) ∧
      (∀ c ∈ [((0 : ℝ), (0 : ℝ))],
        findNearestDistanceToRoute ⟨0, 0⟩ [((0 : ℝ), (0 : ℝ))] ≤
          ((calculateDistance (0 : ℝ) (0 : ℝ) c.2 c.1 : ℝ) : WithTop ℝ))) :=
  ⟨by simp, nearest_distance_is_vertex_minimum ⟨0, 0⟩ [((0 : ℝ), (0 : ℝ))] (by simp)⟩

/-- C10: on the empty coordinate list `findNearestDistanceToRoute`
returns Infinity (the top element) rather than failing, and this value
strictly exceeds every finite threshold, in particular the 30 m
off-route threshold, so any position evaluated against an empty
polyline counts as off-route. -/
theorem empty_polyline_gives_infinity (loc : Location) :
    findNearestDistanceToRoute loc [] = ⊤ ∧
    (∀ t : ℝ, ((t : ℝ) : WithTop ℝ) < findNearestDistanceToRoute loc []) ∧
    ((30 : ℝ) : WithTop ℝ) < findNearestDistanceToRoute loc [] := by
  refine ⟨rfl, fun t => ?_, ?_⟩
  · exact WithTop.coe_lt_top t
  · exact WithTop.coe_lt_top (30 : ℝ)

/-! ### Helper lemmas about the position-watch callback -/

lemma processPosition_not_watching (dest : SearchResult) (r : Route)
    (loc : Location) (now : ℕ) (s : NavState) (hw : s.watchActive = false) :
    processPosition dest r loc now s = s := by
  simp [processPosition, hw]

lemma processPosition_arrival (dest : SearchResult) (r : Route)
    (loc : Location) (now : ℕ) (s : NavState) (hw : s.watchActive = true)
    (hd : calculateDistance loc.lat loc.lng dest.lat dest.lng < 20) :
    processPosition dest r loc now s =
      { s with location := loc, view := AppView.arrived, watchActive := false } := by
  simp [processPosition, hw, hd]

lemma processPosition_recalcFire (dest : SearchResult) (r : Route)
    (loc : Location) (now : ℕ) (s : NavState) (hw : s.watchActive = true)
    (hd : ¬ calculateDistance loc.lat loc.lng dest.lat dest.lng < 20)
    (hoff : ((30 : ℝ) : WithTop ℝ) < findNearestDistanceToRoute loc r.coordinates)
    (hdeb : 10000 < now - s.lastRecalcTime) :
    processPosition dest r loc now s =
      { s with location := loc,
               currentStepIndex := stepAdvance r s.currentStepIndex loc,
               lastRecalcTime := now,
               view := AppView.recalculating,
               pending := s.pending + 1,
               recalcCount := s.recalcCount + 1 } := by
  unfold processPosition
  split_ifs
  rfl

lemma processPosition_debounced (dest : SearchResult) (r : Route)
    (loc : Location) (now : ℕ) (s : NavState) (hw : s.watchActive = true)
    (hd : ¬ calculateDistance loc.lat loc.lng dest.lat dest.lng < 20)
    (hoff : ((30 : ℝ) : WithTop ℝ) < findNearestDistanceToRoute loc r.coordinates)
    (hdeb : ¬ 10000 < now - s.lastRecalcTime) :
    processPosition dest r loc now s =
      { s with location := loc,
               currentStepIndex := stepAdvance r s.currentStepIndex loc } := by
  unfold processPosition
  split_ifs
  rfl

lemma processPosition_onRoute (dest : SearchResult) (r : Route)
    (loc : Location) (now : ℕ) (s : NavState) (hw : s.watchActive = true)
    (hd : ¬ calculateDistance loc.lat loc.lng dest.lat dest.lng < 20)
    (hoff : ¬ ((30 : ℝ) : WithTop ℝ) < findNearestDistanceToRoute loc r.coordinates) :
    processPosition dest r loc now s =
      { s with location := loc,
               currentStepIndex := stepAdvance r s.currentStepIndex loc } := by
  unfold processPosition
  split_ifs
  rfl

lemma stepAdvance_self_or_succ (r : Route) (i : ℕ) (loc : Location) :
    stepAdvance r i loc = i ∨ stepAdvance r i loc = i + 1 := by
  unfold stepAdvance
  cases hstep : r.steps.get? i with
  | none => left; rfl
  | some step =>
    by_cases h1 : 1 < step.way_points.length
    · simp only [if_pos h1]
      cases hec : r.coordinates.get?
          (step.way_points.getD (step.way_points.length - 1) 0) with
      | none => left; rfl
      | some ec =>
        by_cases h2 : calculateDistance loc.lat loc.lng ec.2 ec.1 < 6 ∧
            i < r.steps.length - 1
        · right
          simp only [if_pos h2]
        · left
          simp only [if_neg h2]
    · left
      simp only [if_neg h1]

lemma stepAdvance_le (r : Route) (i : ℕ) (loc : Location) :
    i ≤ stepAdvance r i loc := by
  rcases stepAdvance_self_or_succ r i loc with h | h <;> omega

lemma foldl_stepAdvance_le (r : Route) :
    ∀ (locs : List Location) (i : ℕ),
      i ≤ List.foldl (fun j l => stepAdvance r j l) i locs := by
  intro locs
  induction locs with
  | nil => intro i; exact le_refl i
  | cons x xs ih =>
    intro i
    simp only [List.foldl_cons]
    exact le_trans (stepAdvance_le r i x) (ih (stepAdvance r i x))

lemma processPosition_index_self_or_succ (dest : SearchResult) (r : Route)
    (loc : Location) (now : ℕ) (s : NavState) :
    (processPosition dest r loc now s).currentStepIndex = s.currentStepIndex ∨
    (processPosition dest r loc now s).currentStepIndex = s.currentStepIndex + 1 := by
  by_cases hw : s.watchActive = true
  · by_cases hd : calculateDistance loc.lat loc.lng dest.lat dest.lng < 20
    · rw [processPosition_arrival dest r loc now s hw hd]
      left; rfl
    · by_cases hoff : ((30 : ℝ) : WithTop ℝ) <
          findNearestDistanceToRoute loc r.coordinates
      · by_cases hdeb : 10000 < now - s.lastRecalcTime
        · rw [processPosition_recalcFire dest r loc now s hw hd hoff hdeb]
          exact stepAdvance_self_or_succ r s.currentStepIndex loc
        · rw [processPosition_debounced dest r loc now s hw hd hoff hdeb]
          exact stepAdvance_self_or_succ r s.currentStepIndex loc
      · rw [processPosition_onRoute dest r loc now s hw hd hoff]
        exact stepAdvance_self_or_succ r s.currentStepIndex loc
  · rw [processPosition_not_watching dest r loc now s (by simpa using hw)]
    left; rfl

/-! ### Concrete fixtures used by witnesses and counterexamples

All concrete points sit on the Greenwich meridian, where the Haversine
distance evaluates exactly to Earth radius times the latitude
difference in radians: 0.0001 degrees of latitude is about 11.12 m. -/

/-- A well-formed two-step route whose two coordinates both lie at the
origin. -/
def routeW : Route :=
  { coordinates := [((0 : ℝ), (0 : ℝ)), ((0 : ℝ), (0 : ℝ))],
    steps := [{ way_points := [0, 1] }, { way_points := [1, 1] }] }

/-- Destination 0.0002 degrees of latitude north of the origin,
about 22.2 m away. -/
def destB : SearchResult := { id := 1, lat := 0.0002, lng := 0 }

/-- Destination at the origin. -/
def destO : SearchResult := { id := 2, lat := 0, lng := 0 }

/-- A route whose two vertices lie 0.0004 and 0.0005 degrees of
latitude north of the origin (about 44.5 m and 55.6 m away): a
position at the origin is off-route (nearest vertex beyond 30 m). -/
def farRoute : Route :=
  { coordinates := [((0 : ℝ), (0.0004 : ℝ)), ((0 : ℝ), (0.0005 : ℝ))],
    steps := [{ way_points := [0, 1] }] }

/-- A one-vertex route 0.0002 degrees of latitude north of the origin:
about 22.2 m from a position at the origin, between the 10 m and 30 m
thresholds. -/
def nearRoute : Route :=
  { coordinates := [((0 : ℝ), (0.0002 : ℝ))], steps := [] }

/-- A route with no coordinates at all. -/
def emptyRoute : Route := { coordinates := [], steps := [] }

/-- A route whose polyline ends 0.0003 degrees of latitude north of
the origin while the chosen destination is the origin itself. -/
def routeC6 : Route :=
  { coordinates := [((0 : ℝ), (0 : ℝ)), ((0 : ℝ), (0.0003 : ℝ))],
    steps := [{ way_points := [0, 1] }] }

/-- A recognisably different route delivered by a recalculation
response. -/
def routeNew : Route :=
  { distance := 999, coordinates := [((0 : ℝ), (0 : ℝ))],
    steps := [{ way_points := [0, 0] }] }

/-- A baseline navigating state with the watch active. -/
def stateNav : NavState :=
  { view := AppView.navigating, location := ⟨0, 0⟩, route := farRoute,
    currentStepIndex := 0, lastRecalcTime := 0, watchActive := true,
    pending := 0, recalcCount := 0 }

/-- A state whose last recalculation was recorded at 1000 ms. -/
def stateC1 : NavState := { stateNav with lastRecalcTime := 1000 }

/-- A state in the recalculating view with one request in flight,
whose request was recorded at 5000 ms. -/
def stateC2 : NavState :=
  { stateNav with
    view := AppView.recalculating
    lastRecalcTime := 5000
    pending := 1
    recalcCount := 1 }

/-! ### Concrete distance evaluations -/

lemma dist_meridian (δ : ℝ) (h0 : 0 ≤ δ) (h1 : δ < 180) :
    calculateDistance 0 0 δ 0 = 6371000 * (δ * Real.pi / 180) := by
  have h := calculateDistance_same_lng 0 δ 0 h0 (by simpa using small_angle δ h1)
  simpa using h

lemma d0002_eq : calculateDistance 0 0 (0.0002 : ℝ) 0 =
    6371000 * ((0.0002 : ℝ) * Real.pi / 180) :=
  dist_meridian 0.0002 (by norm_num) (by norm_num)

lemma d0002_not_lt20 : ¬ calculateDistance 0 0 (0.0002 : ℝ) 0 < 20 := by
  rw [d0002_eq]
  push_neg
  nlinarith [Real.pi_gt_three]

lemma d0002_gt10 : (10 : ℝ) < calculateDistance 0 0 (0.0002 : ℝ) 0 := by
  rw [d0002_eq]
  nlinarith [Real.pi_gt_three]

lemma d0002_not_gt30 : ¬ (30 : ℝ) < calculateDistance 0 0 (0.0002 : ℝ) 0 := by
  rw [d0002_eq]
  push_neg
  nlinarith [Real.pi_lt_315]

lemma d0003_not_lt20 : ¬ calculateDistance 0 0 (0.0003 : ℝ) 0 < 20 := by
  rw [dist_meridian 0.0003 (by norm_num) (by norm_num)]
  push_neg
  nlinarith [Real.pi_gt_three]

lemma d0003_pos : 0 < calculateDistance 0 0 (0.0003 : ℝ) 0 := by
  rw [dist_meridian 0.0003 (by norm_num) (by norm_num)]
  nlinarith [Real.pi_gt_three]

lemma d0004_gt30 : (30 : ℝ) < calculateDistance 0 0 (0.0004 : ℝ) 0 := by
  rw [dist_meridian 0.0004 (by norm_num) (by norm_num)]
  nlinarith [Real.pi_gt_three]

lemma d0004_not_lt20 : ¬ calculateDistance 0 0 (0.0004 : ℝ) 0 < 20 := by
  rw [dist_meridian 0.0004 (by norm_num) (by norm_num)]
  push_neg
  nlinarith [Real.pi_gt_three]

lemma d0005_not_lt_d0004 : ¬ calculateDistance 0 0 (0.0005 : ℝ) 0 <
    calculateDistance 0 0 (0.0004 : ℝ) 0 := by
  rw [dist_meridian 0.0005 (by norm_num) (by norm_num),
    dist_meridian 0.0004 (by norm_num) (by norm_num)]
  push_neg
  nlinarith [Real.pi_pos]

/-! ### Concrete nearest-distance evaluations -/

lemma nearest_farRoute : findNearestDistanceToRoute ⟨0, 0⟩ farRoute.coordinates =
    ((calculateDistance 0 0 (0.0004 : ℝ) 0 : ℝ) : WithTop ℝ) := by
  rw [show farRoute.coordinates =
    [((0 : ℝ), (0.0004 : ℝ)), ((0 : ℝ), (0.0005 : ℝ))] from rfl]
  rw [findNearest_eq_foldl]
  simp only [List.foldl_cons, List.foldl_nil, distTo_eq]
  rw [if_pos (WithTop.coe_lt_top _)]
  rw [if_neg (fun h => d0005_not_lt_d0004 (WithTop.coe_lt_coe.mp h))]

lemma nearest_farRoute_gt30 :
    ((30 : ℝ) : WithTop ℝ) < findNearestDistanceToRoute ⟨0, 0⟩ farRoute.coordinates := by
  rw [nearest_farRoute]
  exact_mod_cast d0004_gt30

lemma nearest_nearRoute : findNearestDistanceToRoute ⟨0, 0⟩ nearRoute.coordinates =
    ((calculateDistance 0 0 (0.0002 : ℝ) 0 : ℝ) : WithTop ℝ) := by
  rw [show nearRoute.coordinates = [((0 : ℝ), (0.0002 : ℝ))] from rfl]
  rw [findNearest_eq_foldl]
  simp only [List.foldl_cons, List.foldl_nil, distTo_eq]
  rw [if_pos (WithTop.coe_lt_top _)]

lemma nearest_nearRoute_gt10 :
    ((10 : ℝ) : WithTop ℝ) < findNearestDistanceToRoute ⟨0, 0⟩ nearRoute.coordinates := by
  rw [nearest_nearRoute]
  exact_mod_cast d0002_gt10

lemma nearest_nearRoute_not_gt30 :
    ¬ ((30 : ℝ) : WithTop ℝ) <
      findNearestDistanceToRoute ⟨0, 0⟩ nearRoute.coordinates := by
  rw [nearest_nearRoute]
  exact fun h => d0002_not_gt30 (WithTop.coe_lt_coe.mp h)

lemma nearest_emptyRoute_gt30 :
    ((30 : ℝ) : WithTop ℝ) <
      findNearestDistanceToRoute ⟨0, 0⟩ emptyRoute.coordinates :=
  WithTop.coe_lt_top (30 : ℝ)

lemma nearest_routeC6_le :
    findNearestDistanceToRoute ⟨0.0003, 0⟩ routeC6.coordinates ≤ ((0 : ℝ) : WithTop ℝ) := by
  have hmem : ((0 : ℝ), (0.0003 : ℝ)) ∈ routeC6.coordinates := by
    rw [show routeC6.coordinates =
      [((0 : ℝ), (0 : ℝ)), ((0 : ℝ), (0.0003 : ℝ))] from rfl]
    simp
  have h := foldlMin_le_of_mem (distTo ⟨0.0003, 0⟩) routeC6.coordinates ⊤
    ((0 : ℝ), (0.0003 : ℝ)) hmem
  rw [← findNearest_eq_foldl] at h
  rw [show distTo ⟨0.0003, 0⟩ ((0 : ℝ), (0.0003 : ℝ)) =
      ((calculateDistance (0.0003 : ℝ) 0 (0.0003 : ℝ) 0 : ℝ) : WithTop ℝ) from rfl,
    calculateDistance_self] at h
  exact h

lemma nearest_routeC6_not_gt30 :
    ¬ ((30 : ℝ) : WithTop ℝ) <
      findNearestDistanceToRoute ⟨0.0003, 0⟩ routeC6.coordinates := by
  intro h
  have h2 := lt_of_lt_of_le h nearest_routeC6_le
  rw [WithTop.coe_lt_coe] at h2
  norm_num at h2

/-! ### Claim theorems: step tracking and recalculation handlers -/

/-- C5: on a well-formed route with a valid current step index, the
step index advances by exactly one if and only if the position is
strictly within 6 m of the current step's end coordinate and the
current step is not the last; it never changes otherwise, so over any
sequence of Position events it is non-decreasing and grows by at most
1 per event. -/
theorem step_advancement_rule (currentRoute : Route) (idx : ℕ) (loc : Location)
    (hidx : idx < currentRoute.steps.length)
    (hwf : WellFormedRoute currentRoute) :
    (∃ ec, stepEndCoord currentRoute idx = some ec ∧
      (stepAdvance currentRoute idx loc = idx + 1 ↔
        (calculateDistance loc.lat loc.lng ec.2 ec.1 < 6 ∧
          idx < currentRoute.steps.length - 1))) ∧
    (stepAdvance currentRoute idx loc = idx ∨
      stepAdvance currentRoute idx loc = idx + 1) ∧
    (∀ (dest : SearchResult) (now : ℕ) (s : NavState),
      (processPosition dest currentRoute loc now s).currentStepIndex =
          s.currentStepIndex ∨
      (processPosition dest currentRoute loc now s).currentStepIndex =
          s.currentStepIndex + 1) ∧
    (∀ locs : List Location,
      idx ≤ List.foldl (fun j l => stepAdvance currentRoute j l) idx locs) := by
  refine ⟨?_, stepAdvance_self_or_succ currentRoute idx loc,
    fun dest now s => processPosition_index_self_or_succ dest currentRoute loc now s,
    fun locs => foldl_stepAdvance_le currentRoute locs idx⟩
  have hstep : currentRoute.steps.get? idx = some (currentRoute.steps.get ⟨idx, hidx⟩) :=
    List.get?_eq_get hidx
  obtain ⟨hlen, hins⟩ := hwf (currentRoute.steps.get ⟨idx, hidx⟩)
    (List.get_mem currentRoute.steps idx hidx)
  have h1 : 1 < (currentRoute.steps.get ⟨idx, hidx⟩).way_points.length := by omega
  have hlast : (currentRoute.steps.get ⟨idx, hidx⟩).way_points.length - 1 <
      (currentRoute.steps.get ⟨idx, hidx⟩).way_points.length := by omega
  have hmem : (currentRoute.steps.get ⟨idx, hidx⟩).way_points.getD
      ((currentRoute.steps.get ⟨idx, hidx⟩).way_points.length - 1) 0 ∈
      (currentRoute.steps.get ⟨idx, hidx⟩).way_points := by
    rw [List.getD_eq_get?, List.get?_eq_get hlast]
    exact List.get_mem _ _ hlast
  have hlt := hins _ hmem
  have hec : currentRoute.coordinates.get?
      ((currentRoute.steps.get ⟨idx, hidx⟩).way_points.getD
        ((currentRoute.steps.get ⟨idx, hidx⟩).way_points.length - 1) 0) =
      some (currentRoute.coordinates.get ⟨_, hlt⟩) := List.get?_eq_get hlt
  have hkey : stepAdvance currentRoute idx loc =
      (if calculateDistance loc.lat loc.lng
          (currentRoute.coordinates.get ⟨_, hlt⟩).2
          (currentRoute.coordinates.get ⟨_, hlt⟩).1 < 6 ∧
          idx < currentRoute.steps.length - 1
        then idx + 1 else idx) := by
    unfold stepAdvance
    cases h9 : currentRoute.steps.get? idx with
    | none =>
      rw [h9] at hstep
      exact absurd hstep (by simp)
    | some st =>
      rw [h9] at hstep
      injection hstep with hstep
      subst hstep
      dsimp only []
      rw [if_pos h1]
      cases h8 : currentRoute.coordinates.get?
          ((currentRoute.steps.get ⟨idx, hidx⟩).way_points.getD
            ((currentRoute.steps.get ⟨idx, hidx⟩).way_points.length - 1) 0) with
      | none =>
        rw [h8] at hec
        exact absurd hec (by simp)
      | some ec2 =>
        rw [h8] at hec
        injection hec with hec
        dsimp only []
        rw [hec]
  refine ⟨currentRoute.coordinates.get ⟨_, hlt⟩, ?_, ?_⟩
  · unfold stepEndCoord
    rw [hstep]
    exact hec
  · rw [hkey]
    constructor
    · intro h
      by_contra hc
      rw [if_neg hc] at h
      omega
    · intro h
      rw [if_pos h]

/-- Witness for C5 at a concrete input: a well-formed two-step route
whose second coordinate coincides with the position, so the theorem's
hypotheses hold and the advancement rule applies at step 0. -/
theorem step_advancement_rule_witness :
    (0 < (routeW : Route).steps.length) ∧ WellFormedRoute routeW ∧
    ((∃ ec, stepEndCoord routeW 0 = some ec ∧
      (stepAdvance routeW 0 ⟨0, 0⟩ = 0 + 1 ↔
        (calculateDistance (Location.mk 0 0).lat (Location.mk 0 0).lng ec.2 ec.1 < 6 ∧
          0 < routeW.steps.length - 1))) ∧
    (stepAdvance routeW 0 ⟨0, 0⟩ = 0 ∨ stepAdvance routeW 0 ⟨0, 0⟩ = 0 + 1) ∧
    (∀ (dest : SearchResult) (now : ℕ) (s : NavState),
      (processPosition dest routeW ⟨0, 0⟩ now s).currentStepIndex =
          s.currentStepIndex ∨
      (processPosition dest routeW ⟨0, 0⟩ now s).currentStepIndex =
          s.currentStepIndex + 1) ∧
    (∀ locs : List Location,
      0 ≤ List.foldl (fun j l => stepAdvance routeW j l) 0 locs)) :=
  ⟨by decide, by decide, step_advancement_rule routeW 0 ⟨0, 0⟩ (by decide) (by decide)⟩

lemma arrived_dist : calculateDistance (0.0002 : ℝ) 0 (0.0002 : ℝ) 0 < 20 := by
  rw [calculateDistance_self]
  norm_num

/-- C1 (amended): a recalculation request is issued on an off-route
evaluation if and only if strictly more than RECALC_DEBOUNCE (10 s)
has elapsed since `lastRecalcTime` (which starts at 0); consequently,
when the first of two off-route evaluations 5 s apart fires, exactly
one request is issued across the two, and when the first of two
off-route evaluations 11 s apart fires, two requests are issued. -/
theorem recalculation_debounce_rule (dest : SearchResult) (r : Route) :
    (∀ (loc : Location) (now : ℕ) (s : NavState),
      s.watchActive = true →
      ¬ calculateDistance loc.lat loc.lng dest.lat dest.lng < 20 →
      ((processPosition dest r loc now s).recalcCount = s.recalcCount + 1 ↔
        (((30 : ℝ) : WithTop ℝ) < findNearestDistanceToRoute loc r.coordinates ∧
          10000 < now - s.lastRecalcTime))) ∧
    (∀ (loc1 loc2 : Location) (t1 : ℕ) (s : NavState),
      s.watchActive = true →
      ¬ calculateDistance loc1.lat loc1.lng dest.lat dest.lng < 20 →
      ¬ calculateDistance loc2.lat loc2.lng dest.lat dest.lng < 20 →
      ((30 : ℝ) : WithTop ℝ) < findNearestDistanceToRoute loc1 r.coordinates →
      ((30 : ℝ) : WithTop ℝ) < findNearestDistanceToRoute loc2 r.coordinates →
      10000 < t1 - s.lastRecalcTime →
      (processPosition dest r loc2 (t1 + 5000)
        (processPosition dest r loc1 t1 s)).recalcCount = s.recalcCount + 1) ∧
    (∀ (loc1 loc2 : Location) (t1 : ℕ) (s : NavState),
      s.watchActive = true →
      ¬ calculateDistance loc1.lat loc1.lng dest.lat dest.lng < 20 →
      ¬ calculateDistance loc2.lat loc2.lng dest.lat dest.lng < 20 →
      ((30 : ℝ) : WithTop ℝ) < findNearestDistanceToRoute loc1 r.coordinates →
      ((30 : ℝ) : WithTop ℝ) < findNearestDistanceToRoute loc2 r.coordinates →
      10000 < t1 - s.lastRecalcTime →
      (processPosition dest r loc2 (t1 + 11000)
        (processPosition dest r loc1 t1 s)).recalcCount = s.recalcCount + 2) := by
  refine ⟨?_, ?_, ?_⟩
  · intro loc now s hw hd
    by_cases hoff : ((30 : ℝ) : WithTop ℝ) < findNearestDistanceToRoute loc r.coordinates
    · by_cases hdeb : 10000 < now - s.lastRecalcTime
      · rw [processPosition_recalcFire dest r loc now s hw hd hoff hdeb]
        exact ⟨fun _ => ⟨hoff, hdeb⟩, fun _ => rfl⟩
      · rw [processPosition_debounced dest r loc now s hw hd hoff hdeb]
        constructor
        · intro h
          have h2 : s.recalcCount = s.recalcCount + 1 := h
          omega
        · intro hcon
          exact absurd hcon.2 hdeb
    · rw [processPosition_onRoute dest r loc now s hw hd hoff]
      constructor
      · intro h
        have h2 : s.recalcCount = s.recalcCount + 1 := h
        omega
      · intro hcon
        exact absurd hcon.1 hoff
  · intro loc1 loc2 t1 s hw hd1 hd2 ho1 ho2 hf
    rw [processPosition_recalcFire dest r loc1 t1 s hw hd1 ho1 hf]
    rw [processPosition_debounced dest r loc2 (t1 + 5000)
      { s with
        location := loc1
        currentStepIndex := stepAdvance r s.currentStepIndex loc1
        lastRecalcTime := t1
        view := AppView.recalculating
        pending := s.pending + 1
        recalcCount := s.recalcCount + 1 }
      hw hd2 ho2 (by show ¬ 10000 < (t1 + 5000) - t1; omega)]
  · intro loc1 loc2 t1 s hw hd1 hd2 ho1 ho2 hf
    rw [processPosition_recalcFire dest r loc1 t1 s hw hd1 ho1 hf]
    rw [processPosition_recalcFire dest r loc2 (t1 + 11000)
      { s with
        location := loc1
        currentStepIndex := stepAdvance r s.currentStepIndex loc1
        lastRecalcTime := t1
        view := AppView.recalculating
        pending := s.pending + 1
        recalcCount := s.recalcCount + 1 }
      hw hd2 ho2 (by show 10000 < (t1 + 11000) - t1; omega)]

/-- Witness for C1 at concrete inputs: the origin is off-route for
`farRoute`, more than 22 m from `destB`, and the debounce window of
`stateNav` is open at t = 20000 ms, so the first evaluation fires;
5 s later no second request is issued, 11 s later one is. -/
theorem recalculation_debounce_rule_witness :
    stateNav.watchActive = true ∧
    (¬ calculateDistance (Location.mk 0 0).lat (Location.mk 0 0).lng
        destB.lat destB.lng < 20) ∧
    ((30 : ℝ) : WithTop ℝ) < findNearestDistanceToRoute ⟨0, 0⟩ farRoute.coordinates ∧
    10000 < 20000 - stateNav.lastRecalcTime ∧
    ((processPosition destB farRoute ⟨0, 0⟩ 20000 stateNav).recalcCount =
        stateNav.recalcCount + 1 ↔
      (((30 : ℝ) : WithTop ℝ) < findNearestDistanceToRoute ⟨0, 0⟩ farRoute.coordinates ∧
        10000 < 20000 - stateNav.lastRecalcTime)) ∧
    (processPosition destB farRoute ⟨0, 0⟩ (20000 + 5000)
      (processPosition destB farRoute ⟨0, 0⟩ 20000 stateNav)).recalcCount =
        stateNav.recalcCount + 1 ∧
    (processPosition destB farRoute ⟨0, 0⟩ (20000 + 11000)
      (processPosition destB farRoute ⟨0, 0⟩ 20000 stateNav)).recalcCount =
        stateNav.recalcCount + 2 :=
  ⟨rfl, d0002_not_lt20, nearest_farRoute_gt30, by decide,
    (recalculation_debounce_rule destB farRoute).1 ⟨0, 0⟩ 20000 stateNav rfl
      d0002_not_lt20,
    (recalculation_debounce_rule destB farRoute).2.1 ⟨0, 0⟩ ⟨0, 0⟩ 20000 stateNav rfl
      d0002_not_lt20 d0002_not_lt20 nearest_farRoute_gt30 nearest_farRoute_gt30
      (by decide),
    (recalculation_debounce_rule destB farRoute).2.2 ⟨0, 0⟩ ⟨0, 0⟩ 20000 stateNav rfl
      d0002_not_lt20 d0002_not_lt20 nearest_farRoute_gt30 nearest_farRoute_gt30
      (by decide)⟩

/-- C1 counterexample: with the last recalculation recorded at
t = 1000 ms, an off-route evaluation at t = 11000 ms — exactly
RECALC_DEBOUNCE after it, so the claim's "at least 10 s have elapsed"
condition holds — issues no request: the code requires strictly more
than 10000 ms. -/
theorem debounce_boundary_counterexample :
    ((30 : ℝ) : WithTop ℝ) < findNearestDistanceToRoute ⟨0, 0⟩ farRoute.coordinates ∧
    (¬ calculateDistance (Location.mk 0 0).lat (Location.mk 0 0).lng
        destB.lat destB.lng < 20) ∧
    11000 - stateC1.lastRecalcTime = 10000 ∧
    (processPosition destB farRoute ⟨0, 0⟩ 11000 stateC1).recalcCount =
      stateC1.recalcCount ∧
    (processPosition destB farRoute ⟨0, 0⟩ 11000 stateC1).view =
      AppView.navigating := by
  refine ⟨nearest_farRoute_gt30, d0002_not_lt20, by decide, ?_, ?_⟩ <;>
    rw [processPosition_debounced destB farRoute ⟨0, 0⟩ 11000 stateC1 rfl
      d0002_not_lt20 nearest_farRoute_gt30 (by decide)] <;> rfl

/-- C2 (amended): while the phase is RECALCULATING, Position events
still update the displayed location, but StepTracker/RouteMonitor
evaluation against the stale route is not suppressed — the step index
is still updated by the step-advance rule — and a second overlapping
recalculation request is prevented only by the 10 s debounce: it is
issued exactly when the position is off-route and more than 10 s have
elapsed since the first request was recorded. -/
theorem recalculating_phase_not_suppressed (dest : SearchResult) (r : Route)
    (loc : Location) (now : ℕ) (s : NavState)
    (hview : s.view = AppView.recalculating)
    (hw : s.watchActive = true)
    (hd : ¬ calculateDistance loc.lat loc.lng dest.lat dest.lng < 20) :
    (processPosition dest r loc now s).location = loc ∧
    (processPosition dest r loc now s).currentStepIndex =
      stepAdvance r s.currentStepIndex loc ∧
    ((processPosition dest r loc now s).pending = s.pending + 1 ↔
      (((30 : ℝ) : WithTop ℝ) < findNearestDistanceToRoute loc r.coordinates ∧
        10000 < now - s.lastRecalcTime)) := by
  by_cases hoff : ((30 : ℝ) : WithTop ℝ) < findNearestDistanceToRoute loc r.coordinates
  · by_cases hdeb : 10000 < now - s.lastRecalcTime
    · rw [processPosition_recalcFire dest r loc now s hw hd hoff hdeb]
      exact ⟨rfl, rfl, fun _ => ⟨hoff, hdeb⟩, fun _ => rfl⟩
    · rw [processPosition_debounced dest r loc now s hw hd hoff hdeb]
      refine ⟨rfl, rfl, ?_, fun hcon => absurd hcon.2 hdeb⟩
      intro h
      have h2 : s.pending = s.pending + 1 := h
      omega
  · rw [processPosition_onRoute dest r loc now s hw hd hoff]
    refine ⟨rfl, rfl, ?_, fun hcon => absurd hcon.1 hoff⟩
    intro h
    have h2 : s.pending = s.pending + 1 := h
    omega

/-- Witness for C2 at concrete inputs: `stateC2` is in the
recalculating view with the watch active, and the origin is not within
20 m of `destB`. -/
theorem recalculating_phase_not_suppressed_witness :
    stateC2.view = AppView.recalculating ∧
    stateC2.watchActive = true ∧
    (¬ calculateDistance (Location.mk 0 0).lat (Location.mk 0 0).lng
        destB.lat destB.lng < 20) ∧
    ((processPosition destB farRoute ⟨0, 0⟩ 15001 stateC2).location = ⟨0, 0⟩ ∧
      (processPosition destB farRoute ⟨0, 0⟩ 15001 stateC2).currentStepIndex =
        stepAdvance farRoute stateC2.currentStepIndex ⟨0, 0⟩ ∧
      ((processPosition destB farRoute ⟨0, 0⟩ 15001 stateC2).pending =
          stateC2.pending + 1 ↔
        (((30 : ℝ) : WithTop ℝ) <
            findNearestDistanceToRoute ⟨0, 0⟩ farRoute.coordinates ∧
          10000 < 15001 - stateC2.lastRecalcTime))) :=
  ⟨rfl, rfl, d0002_not_lt20,
    recalculating_phase_not_suppressed destB farRoute ⟨0, 0⟩ 15001 stateC2 rfl rfl
      d0002_not_lt20⟩

/-- C2 counterexample: in `stateC2` one recalculation request is in
flight (pending = 1, view recalculating, recorded at 5000 ms); an
off-route position event at 15001 ms issues a second overlapping
request before the first resolves (pending = 2). -/
theorem overlapping_recalculation_counterexample :
    stateC2.view = AppView.recalculating ∧
    stateC2.pending = 1 ∧
    (processPosition destB farRoute ⟨0, 0⟩ 15001 stateC2).pending = 2 ∧
    (processPosition destB farRoute ⟨0, 0⟩ 15001 stateC2).recalcCount = 2 ∧
    (processPosition destB farRoute ⟨0, 0⟩ 15001 stateC2).view =
      AppView.recalculating := by
  refine ⟨rfl, rfl, ?_, ?_, ?_⟩ <;>
    rw [processPosition_recalcFire destB farRoute ⟨0, 0⟩ 15001 stateC2 rfl
      d0002_not_lt20 nearest_farRoute_gt30 (by decide)] <;> rfl

/-- C3 (amended): arrival is terminal for Position events — the
arrival transition clears the watch, and with the watch cleared every
later Position event leaves the state untouched (no step advancement,
no recalculation start, no route installation) — but a recalculation
response still in flight when arrival occurs does get through: its
success handler installs the new route, resets the step index and
returns the view to navigating even from the arrived view. -/
theorem arrival_terminal_for_position_events :
    (∀ (dest : SearchResult) (r : Route) (loc : Location) (now : ℕ) (s : NavState),
      s.watchActive = false → processPosition dest r loc now s = s) ∧
    (∀ (dest : SearchResult) (r : Route) (loc : Location) (now : ℕ) (s : NavState),
      s.watchActive = true →
      calculateDistance loc.lat loc.lng dest.lat dest.lng < 20 →
      ((processPosition dest r loc now s).view = AppView.arrived ∧
        (processPosition dest r loc now s).watchActive = false ∧
        (processPosition dest r loc now s).currentStepIndex = s.currentStepIndex ∧
        (processPosition dest r loc now s).recalcCount = s.recalcCount ∧
        (processPosition dest r loc now s).route = s.route)) ∧
    (∀ (nr : Route) (s : NavState), s.view = AppView.arrived →
      ((processRecalcSuccess nr s).view = AppView.navigating ∧
        (processRecalcSuccess nr s).route = nr ∧
        (processRecalcSuccess nr s).currentStepIndex = 0)) := by
  refine ⟨fun dest r loc now s hw => processPosition_not_watching dest r loc now s hw,
    fun dest r loc now s hw hd => ?_, fun nr s _ => ⟨rfl, rfl, rfl⟩⟩
  rw [processPosition_arrival dest r loc now s hw hd]
  exact ⟨rfl, rfl, rfl, rfl, rfl⟩

/-- Witness for C3 at concrete inputs: a state with the watch cleared
absorbs Position events; an event at `destB` in `stateNav` arrives;
and a success response installs its route from the arrived view. -/
theorem arrival_terminal_for_position_events_witness :
    ({ stateNav with watchActive := false } : NavState).watchActive = false ∧
    stateNav.watchActive = true ∧
    calculateDistance (Location.mk 0.0002 0).lat (Location.mk 0.0002 0).lng
      destB.lat destB.lng < 20 ∧
    ({ stateNav with view := AppView.arrived } : NavState).view = AppView.arrived ∧
    (processPosition destB farRoute ⟨0, 0⟩ 20000
        { stateNav with watchActive := false } =
      { stateNav with watchActive := false }) ∧
    ((processPosition destB farRoute ⟨0.0002, 0⟩ 20000 stateNav).view =
        AppView.arrived ∧
      (processPosition destB farRoute ⟨0.0002, 0⟩ 20000 stateNav).watchActive = false ∧
      (processPosition destB farRoute ⟨0.0002, 0⟩ 20000 stateNav).currentStepIndex =
        stateNav.currentStepIndex ∧
      (processPosition destB farRoute ⟨0.0002, 0⟩ 20000 stateNav).recalcCount =
        stateNav.recalcCount ∧
      (processPosition destB farRoute ⟨0.0002, 0⟩ 20000 stateNav).route =
        stateNav.route) ∧
    ((processRecalcSuccess routeNew { stateNav with view := AppView.arrived }).view =
        AppView.navigating ∧
      (processRecalcSuccess routeNew { stateNav with view := AppView.arrived }).route =
        routeNew ∧
      (processRecalcSuccess routeNew
        { stateNav with view := AppView.arrived }).currentStepIndex = 0) :=
  ⟨rfl, rfl, arrived_dist, rfl,
    arrival_terminal_for_position_events.1 destB farRoute ⟨0, 0⟩ 20000
      { stateNav with watchActive := false } rfl,
    arrival_terminal_for_position_events.2.1 destB farRoute ⟨0.0002, 0⟩ 20000
      stateNav rfl arrived_dist,
    arrival_terminal_for_position_events.2.2 routeNew
      { stateNav with view := AppView.arrived } rfl⟩

/-- C3 counterexample: starting from `stateNav`, an off-route event at
20000 ms issues a recalculation (one request in flight), an event at
`destB` at 21000 ms arrives; when the in-flight response then lands,
the new route is installed, the step index resets and the view leaves
arrived for navigating — so route installation does happen after the
Arrived transition. -/
theorem arrival_not_terminal_counterexample :
    (processPosition destB farRoute ⟨0.0002, 0⟩ 21000
        (processPosition destB farRoute ⟨0, 0⟩ 20000 stateNav)).view =
      AppView.arrived ∧
    (processPosition destB farRoute ⟨0.0002, 0⟩ 21000
        (processPosition destB farRoute ⟨0, 0⟩ 20000 stateNav)).pending = 1 ∧
    (processRecalcSuccess routeNew
        (processPosition destB farRoute ⟨0.0002, 0⟩ 21000
          (processPosition destB farRoute ⟨0, 0⟩ 20000 stateNav))).view =
      AppView.navigating ∧
    (processRecalcSuccess routeNew
        (processPosition destB farRoute ⟨0.0002, 0⟩ 21000
          (processPosition destB farRoute ⟨0, 0⟩ 20000 stateNav))).route =
      routeNew ∧
    (processRecalcSuccess routeNew
        (processPosition destB farRoute ⟨0.0002, 0⟩ 21000
          (processPosition destB farRoute ⟨0, 0⟩ 20000 stateNav))).currentStepIndex =
      0 := by
  rw [processPosition_recalcFire destB farRoute ⟨0, 0⟩ 20000 stateNav rfl
    d0002_not_lt20 nearest_farRoute_gt30 (by decide)]
  rw [processPosition_arrival destB farRoute ⟨0.0002, 0⟩ 21000
    { stateNav with
      location := ⟨0, 0⟩
      currentStepIndex := stepAdvance farRoute stateNav.currentStepIndex ⟨0, 0⟩
      lastRecalcTime := 20000
      view := AppView.recalculating
      pending := stateNav.pending + 1
      recalcCount := stateNav.recalcCount + 1 }
    rfl arrived_dist]
  exact ⟨rfl, rfl, rfl, rfl, rfl⟩

/-- C4 (amended): with the debounce window open and arrival not
triggered, a recalculation is issued if and only if the nearest
distance to the route polyline strictly exceeds 30 m: the code's
OFF_ROUTE_THRESHOLD is 30 m, not a value in the 5–10 m range. -/
theorem offroute_threshold_is_thirty (dest : SearchResult) (r : Route)
    (loc : Location) (now : ℕ) (s : NavState)
    (hw : s.watchActive = true)
    (hd : ¬ calculateDistance loc.lat loc.lng dest.lat dest.lng < 20)
    (hdeb : 10000 < now - s.lastRecalcTime) :
    ((processPosition dest r loc now s).view = AppView.recalculating ∧
      (processPosition dest r loc now s).recalcCount = s.recalcCount + 1) ↔
      ((30 : ℝ) : WithTop ℝ) < findNearestDistanceToRoute loc r.coordinates := by
  by_cases hoff : ((30 : ℝ) : WithTop ℝ) < findNearestDistanceToRoute loc r.coordinates
  · rw [processPosition_recalcFire dest r loc now s hw hd hoff hdeb]
    exact ⟨fun _ => hoff, fun _ => ⟨rfl, rfl⟩⟩
  · rw [processPosition_onRoute dest r loc now s hw hd hoff]
    refine ⟨?_, fun h => absurd h hoff⟩
    intro h
    have h2 : s.recalcCount = s.recalcCount + 1 := h.2
    omega

/-- Witness for C4 at concrete inputs: against the empty polyline the
nearest distance is Infinity, which exceeds 30 m, and with the
debounce open at `stateNav` the theorem yields that a recalculation is
issued. -/
theorem offroute_threshold_is_thirty_witness :
    stateNav.watchActive = true ∧
    (¬ calculateDistance (Location.mk 0 0).lat (Location.mk 0 0).lng
        destB.lat destB.lng < 20) ∧
    10000 < 20000 - stateNav.lastRecalcTime ∧
    (((processPosition destB emptyRoute ⟨0, 0⟩ 20000 stateNav).view =
        AppView.recalculating ∧
      (processPosition destB emptyRoute ⟨0, 0⟩ 20000 stateNav).recalcCount =
        stateNav.recalcCount + 1) ↔
      ((30 : ℝ) : WithTop ℝ) <
        findNearestDistanceToRoute ⟨0, 0⟩ emptyRoute.coordinates) :=
  ⟨rfl, d0002_not_lt20, by decide,
    offroute_threshold_is_thirty destB emptyRoute ⟨0, 0⟩ 20000 stateNav rfl
      d0002_not_lt20 (by decide)⟩

/-- C4 counterexample: the origin is about 22 m from `nearRoute`'s
only vertex — strictly more than 10 m, hence beyond every threshold in
the claimed 5–10 m range — yet with the debounce window wide open the
code issues no recalculation and stays in the navigating view: the
off-route predicate does not hold at 22 m. -/
theorem offroute_threshold_counterexample :
    ((10 : ℝ) : WithTop ℝ) < findNearestDistanceToRoute ⟨0, 0⟩ nearRoute.coordinates ∧
    10000 < 20000 - stateNav.lastRecalcTime ∧
    (processPosition destB nearRoute ⟨0, 0⟩ 20000 stateNav).recalcCount =
      stateNav.recalcCount ∧
    (processPosition destB nearRoute ⟨0, 0⟩ 20000 stateNav).view =
      AppView.navigating := by
  refine ⟨nearest_nearRoute_gt10, by decide, ?_, ?_⟩ <;>
    rw [processPosition_onRoute destB nearRoute ⟨0, 0⟩ 20000 stateNav rfl
      d0002_not_lt20 nearest_nearRoute_not_gt30] <;> rfl

/-- C6 (amended): the arrival decision is true if and only if the
Haversine distance from the position to the chosen destination's
coordinates (the selected SearchResult) is strictly below 20 m — not
the distance to the endPoint of the route's last step — and it is
independent of the current step index, which the quantified state
leaves arbitrary. -/
theorem arrival_uses_destination_coordinates (dest : SearchResult) (r : Route)
    (loc : Location) (now : ℕ) (s : NavState)
    (hw : s.watchActive = true)
    (hv : s.view ≠ AppView.arrived) :
    (processPosition dest r loc now s).view = AppView.arrived ↔
      calculateDistance loc.lat loc.lng dest.lat dest.lng < 20 := by
  by_cases hd : calculateDistance loc.lat loc.lng dest.lat dest.lng < 20
  · rw [processPosition_arrival dest r loc now s hw hd]
    exact ⟨fun _ => hd, fun _ => rfl⟩
  · refine ⟨?_, fun h => absurd h hd⟩
    intro h
    exfalso
    by_cases hoff : ((30 : ℝ) : WithTop ℝ) < findNearestDistanceToRoute loc r.coordinates
    · by_cases hdeb : 10000 < now - s.lastRecalcTime
      · rw [processPosition_recalcFire dest r loc now s hw hd hoff hdeb] at h
        have h2 : AppView.recalculating = AppView.arrived := h
        exact absurd h2 (by decide)
      · rw [processPosition_debounced dest r loc now s hw hd hoff hdeb] at h
        exact hv h
    · rw [processPosition_onRoute dest r loc now s hw hd hoff] at h
      exact hv h

/-- Witness for C6 at concrete inputs: a position exactly at `destB`
in `stateNav` satisfies the arrival criterion, so the equivalence
applies with both sides true. -/
theorem arrival_uses_destination_coordinates_witness :
    stateNav.watchActive = true ∧
    stateNav.view ≠ AppView.arrived ∧
    ((processPosition destB farRoute ⟨0.0002, 0⟩ 20000 stateNav).view =
        AppView.arrived ↔
      calculateDistance (Location.mk 0.0002 0).lat (Location.mk 0.0002 0).lng
        destB.lat destB.lng < 20) :=
  ⟨rfl, by decide,
    arrival_uses_destination_coordinates destB farRoute ⟨0.0002, 0⟩ 20000 stateNav
      rfl (by decide)⟩

/-- C6 counterexample: `routeC6`'s last geometry coordinate — also the
end coordinate of its last step — coincides with the position
(latitude 0.0003), so the claimed criterion (within 20 m of the final
route coordinate) holds with distance 0, yet the code compares with
the chosen destination `destO` about 33 m away and does not arrive:
the view stays navigating. -/
theorem arrival_destination_counterexample :
    routeC6.coordinates.getLast? = some ((0 : ℝ), (0.0003 : ℝ)) ∧
    stepEndCoord routeC6 0 = some ((0 : ℝ), (0.0003 : ℝ)) ∧
    calculateDistance (0.0003 : ℝ) 0 (0.0003 : ℝ) 0 < 20 ∧
    (¬ calculateDistance (0.0003 : ℝ) 0 destO.lat destO.lng < 20) ∧
    (processPosition destO routeC6 ⟨0.0003, 0⟩ 20000 stateNav).view =
      AppView.navigating := by
  have hnd : ¬ calculateDistance (Location.mk 0.0003 0).lat
      (Location.mk 0.0003 0).lng destO.lat destO.lng < 20 := by
    show ¬ calculateDistance (0.0003 : ℝ) 0 0 0 < 20
    rw [calculateDistance_comm]
    exact d0003_not_lt20
  refine ⟨rfl, rfl, ?_, hnd, ?_⟩
  · rw [calculateDistance_self]
    norm_num
  · rw [processPosition_onRoute destO routeC6 ⟨0.0003, 0⟩ 20000 stateNav rfl hnd
      nearest_routeC6_not_gt30]
    rfl

/-- C7: on a failed recalculation the installed route and the current
step index (and everything else except the view and the ghost pending
counter) are exactly as before, and the view returns to navigating. -/
theorem recalculation_failure_preserves_route :
    ∀ s : NavState,
      (processRecalcFailure s).route = s.route ∧
      (processRecalcFailure s).currentStepIndex = s.currentStepIndex ∧
      (processRecalcFailure s).location = s.location ∧
      (processRecalcFailure s).lastRecalcTime = s.lastRecalcTime ∧
      (processRecalcFailure s).watchActive = s.watchActive ∧
      (processRecalcFailure s).view = AppView.navigating :=
  fun _ => ⟨rfl, rfl, rfl, rfl, rfl, rfl⟩

end MojiNav
